import Mathlib

/-!
Verification of the delegation/coordination subsystem of a multi-agent
code-assistant: the coordinator (`delegate_task` and its capability tools,
`packages/core/agents/delegation.py`), the code-extraction micro-agent
(`packages/core/agents/code_extractor.py`) and the quality validator
(`packages/core/utils/code_quality.py`), shallowly embedded in Lean.

LLM/model calls, file-system reads and writes, and Python-library
primitives (the `ast` parser, `json.loads`) are external effects; they are
modelled as explicit parameters (`Except`-valued outcomes, `FileRead`
environments), and the theorems quantify over them.  Python exceptions are
modelled with `Except`: a function that catches every exception at a call
site is embedded as a total function, while an uncaught exception is an
`Except.error` value propagated to the caller.  Strings are treated as
their character sequences (ASCII in all inputs of interest), and Python
floats as exact rationals.
-/

/- == Character and string scanning primitives == -/

/-- Python regex `\w` on ASCII input. -/
def isWordChar (c : Char) : Bool := c.isAlpha || c.isDigit || c == '_'

/-- Python regex `\s` on ASCII input. -/
def isSpaceChar (c : Char) : Bool := c.isWhitespace

/-- Does a pattern match at some start position (regex `re.search`)? -/
def scanAny (p : List Char → Bool) : List Char → Bool
  | [] => p []
  | c :: cs => p (c :: cs) || scanAny p cs

/-- Number of start positions at which a pattern matches.  For needles
that cannot overlap themselves this equals Python's non-overlapping
`len(re.findall(...))`. -/
def scanCount (p : List Char → Bool) : List Char → Nat
  | [] => 0
  | c :: cs => (if p (c :: cs) then 1 else 0) + scanCount p cs

/-- `re.search` for a pattern that must start at a word boundary; `prev`
tracks the character before the current position. -/
def scanAnyB (p : List Char → Bool) : Option Char → List Char → Bool
  | _, [] => false
  | prev, c :: cs =>
    ((match prev with | none => true | some q => !isWordChar q) && p (c :: cs))
      || scanAnyB p (some c) cs

/-- Match `lit₁ \s* lit₂` at the head of a list. -/
def litWsLit (lit₁ lit₂ : List Char) (s : List Char) : Bool :=
  lit₁.isPrefixOf s &&
    lit₂.isPrefixOf ((s.drop lit₁.length).dropWhile isSpaceChar)

/-- Match `lit₁ \s+ lit₂` at the head of a list. -/
def litWsPlusLit (lit₁ lit₂ : List Char) (s : List Char) : Bool :=
  lit₁.isPrefixOf s &&
    (let r := s.drop lit₁.length
     !(r.takeWhile isSpaceChar).isEmpty && lit₂.isPrefixOf (r.dropWhile isSpaceChar))

/-- Match the tag-opening pattern `<tag\b` at the head of a list: the
literal, then a non-word character or the end of input. -/
def tagOpenAt (tag : List Char) (s : List Char) : Bool :=
  tag.isPrefixOf s &&
    (match s.drop tag.length with
     | [] => true
     | c :: _ => !isWordChar c)

/-- Python `s.lower()` on ASCII input. -/
def toLowerStr (s : String) : String := String.mk (s.toList.map Char.toLower)

/-- Python `s.strip()` on ASCII input. -/
def stripStr (s : String) : String :=
  String.mk (((s.toList.dropWhile isSpaceChar).reverse.dropWhile isSpaceChar).reverse)

/-- Python `needle in hay` substring test. -/
def strContains (hay needle : String) : Bool :=
  scanAny (needle.toList.isPrefixOf ·) hay.toList

/-- Substring occurrence count, used for needles (such as `</html>`) whose
matches cannot overlap, where it coincides with `len(re.findall(...))`. -/
def countSubstr (hay needle : String) : Nat :=
  scanCount (fun s => needle.toList.isPrefixOf s && !needle.isEmpty) hay.toList

/-- Index of the first occurrence of a character in a list. -/
def firstIdxOf (c : Char) (cs : List Char) : Option Nat :=
  (cs.enum.find? fun p => p.2 == c).map (·.1)

/-- Index of the last occurrence of a character in a list. -/
def lastIdxOf (c : Char) (cs : List Char) : Option Nat :=
  ((cs.enum.filter fun p => p.2 == c).getLast?).map (·.1)

/-- `pathlib` final path component (`Path(p).name`): last nonempty
`/`-separated component. -/
def pathName (p : String) : String :=
  String.mk ((((List.splitOn '/' p.toList).filter fun c => !c.isEmpty).getLast?).getD [])

/-- `pathlib` extension (`Path(p).suffix`): from the last dot of the name,
provided that dot is neither the first nor the last character. -/
def pathSuffix (p : String) : String :=
  let name := (pathName p).toList
  match lastIdxOf '.' name with
  | none => ""
  | some i => if 0 < i ∧ i < name.length - 1 then String.mk (name.drop i) else ""

/- == Coordinator result synthesis (delegation.py, delegate_task) == -/

structure DelegationResult where
  success : Bool
  result : String
  agents_used : List String
  task_summary : String
  deriving Repr, DecidableEq

/-- The fixed indicator list scanned by `delegate_task` (delegation.py:564). -/
def error_indicators : List String :=
  ["error:", "failed:", "exception:", "could not", "unable to",
   "not found", "does not exist", "cannot"]

/-- Modelled from the spec: `success = NOT any(error_indicator in
lowercase(result))` — the spec-side success detector, to be compared with
the success field computed by the source's `delegate_task`. -/
def compute_success (result : String) : Bool :=
  !(error_indicators.any fun ind => strContains (toLowerStr result) ind)

/-- Agents-used heuristic of `delegate_task` (delegation.py:570-575). -/
def agents_used_of (output : String) : List String :=
  (if strContains output "analyze_codebase" || strContains (toLowerStr output) "codebase"
   then ["codebase_investigator"] else []) ++
  (if strContains output "edit_files" || strContains (toLowerStr output) "editor"
   then ["file_editor"] else [])

/-- Construction of the `DelegationResult` from the coordinator's final
text (delegation.py:560-582). -/
def mkDelegationResult (output : String) : DelegationResult :=
  { success := !(error_indicators.any fun ind => strContains (toLowerStr output) ind)
  , result := output
  , agents_used := agents_used_of output
  , task_summary :=
      if output.length > 200 then (output.take 200) ++ "..." else output }

/-- `delegate_task` (delegation.py:526-593).  The argument is the outcome
of `coordinator.run(user_request)`; that call is not wrapped in
`try/except`, so an exception there propagates to the caller, which the
`Except` pass-through records. -/
def delegate_task (runResult : Except String String) :
    Except String DelegationResult :=
  match runResult with
  | .error e => .error e
  | .ok output => .ok (mkDelegationResult output)

/- == Code extractor (code_extractor.py) == -/

structure ExtractedFile where
  file_path : String
  content : String
  file_type : String
  deriving Repr, DecidableEq

structure ExtractionResult where
  files : List ExtractedFile
  num_files : Nat
  explanation : Option String := none
  deriving Repr, DecidableEq

/-- `re.search(r'\x7b.*\x7d', output, re.DOTALL)` (code_extractor.py:134):
the greedy match spans the first opening brace to the last closing brace,
provided the latter comes after the former. -/
def firstBraceSpan (s : String) : Option String :=
  let cs := s.toList
  match firstIdxOf '{' cs, lastIdxOf '}' cs with
  | some i, some j =>
      if i < j then some (String.mk ((cs.drop i).take (j - i + 1))) else none
  | _, _ => none

/-- `extract_code_from_response` (code_extractor.py:92-160).  `agentRun` is
the outcome of the extraction agent's model call; `jsonDecode` is the
outcome of `json.loads` plus per-entry `ExtractedFile(**f)` validation on
the brace-delimited span (`.error` when either raises).  Every failure
path lands in the single-file fallback. -/
def extract_code_from_response (agentRun : Except String String)
    (jsonDecode : String → Except String (List ExtractedFile))
    (response_text requested_file_path : String) : ExtractionResult :=
  let file_extension := pathSuffix requested_file_path
  let fallback : ExtractionResult :=
    { files := [{ file_path := requested_file_path
                , content := response_text
                , file_type := String.mk (file_extension.toList.dropWhile fun c => c == '.') }]
    , num_files := 1 }
  match agentRun with
  | .error _ => fallback
  | .ok output =>
    match firstBraceSpan output with
    | none => fallback
    | some jsonStr =>
      match jsonDecode jsonStr with
      | .error _ => fallback
      | .ok files => { files := files, num_files := files.length }

/- == Capability tools of the coordinator (delegation.py) == -/

/-- `analyze_codebase` tool (delegation.py:323-383): the specialist's
model-call outcome is folded into a string at the call site. -/
def analyze_codebase_tool (agentRun : Except String String) : String :=
  match agentRun with
  | .ok output => "Code Analysis:\n" ++ output
  | .error e => "Analysis failed: " ++ e

/-- `edit_files` tool (delegation.py:385-461), result synthesis only. -/
def edit_files_tool (agentRun : Except String String) : String :=
  match agentRun with
  | .ok output => "File editor result:\n" ++ output
  | .error e => "Edit failed: " ++ e

/-- `search_code` tool (delegation.py:463-521), result synthesis only. -/
def search_code_tool (agentRun : Except String String) : String :=
  match agentRun with
  | .ok output => "Search results:\n" ++ output
  | .error e => "Search failed: " ++ e

/- == Quality validator (code_quality.py) == -/

structure CodeQualityIssue where
  file_path : String
  issue_type : String
  severity : String
  description : String
  line_number : Option Nat := none
  deriving Repr, DecidableEq

structure QualityReport where
  file_path : String
  has_issues : Bool
  issues : List CodeQualityIssue
  quality_score : ℚ
  deriving Repr, DecidableEq

/-- `QualityReport.has_critical_issues` property (code_quality.py:37-40). -/
def QualityReport.has_critical_issues (r : QualityReport) : Bool :=
  r.issues.any fun i => i.severity == "critical"

/-- `re.search(r'<!DOCTYPE\s+html>', content, re.IGNORECASE)`. -/
def hasDoctype (content : String) : Bool :=
  scanAny (litWsPlusLit "<!doctype".toList "html>".toList) (toLowerStr content).toList

/-- `re.search(r'<html\b', ...)` / `<head\b` / `<body\b`, case-insensitive. -/
def hasOpenTag (tag : String) (content : String) : Bool :=
  scanAny (tagOpenAt ("<" ++ tag).toList) (toLowerStr content).toList

/-- `len(re.findall(r'<html\b', content, re.IGNORECASE))`. -/
def htmlOpenCount (content : String) : Nat :=
  scanCount (tagOpenAt "<html".toList) (toLowerStr content).toList

/-- `len(re.findall(r'</html>', content, re.IGNORECASE))`. -/
def htmlCloseCount (content : String) : Nat :=
  countSubstr (toLowerStr content) "</html>"

/-- `_validate_html_structure` (code_quality.py:63-112). -/
def validate_html_structure (file_path content : String) : List CodeQualityIssue :=
  (if !hasDoctype content then
    [{ file_path, issue_type := "incomplete", severity := "warning"
     , description := "Missing DOCTYPE declaration" }] else []) ++
  (if !hasOpenTag "html" content then
    [{ file_path, issue_type := "incomplete", severity := "critical"
     , description := "Missing <html> tag" }] else []) ++
  (if !hasOpenTag "head" content then
    [{ file_path, issue_type := "incomplete", severity := "critical"
     , description := "Missing <head> tag" }] else []) ++
  (if !hasOpenTag "body" content then
    [{ file_path, issue_type := "incomplete", severity := "critical"
     , description := "Missing <body> tag" }] else []) ++
  (if htmlOpenCount content > htmlCloseCount content then
    [{ file_path, issue_type := "incomplete", severity := "critical"
     , description := "Unclosed <html> tag" }] else [])

/-- Match `//\s*rest\s+of` at the head of a (lowercased) list. -/
def jsRestOfAt (s : List Char) : Bool :=
  "//".toList.isPrefixOf s &&
    litWsPlusLit "rest".toList "of".toList ((s.drop 2).dropWhile isSpaceChar)

/-- Match `/\*\s*\.\x7b3\x7d\s*\*/` at the head of a list. -/
def jsBlockDotsAt (s : List Char) : Bool :=
  "/*".toList.isPrefixOf s &&
    (let r := (s.drop 2).dropWhile isSpaceChar
     "...".toList.isPrefixOf r &&
       "*/".toList.isPrefixOf ((r.drop 3).dropWhile isSpaceChar))

/-- `re.findall(r'\b(\w+)\.execute\(', content)`: collect each maximal
word run that starts at a word boundary and is followed by the literal
`.execute(`.  `prev` is the character before the current position. -/
def jsU1Collect (prev : Option Char) : List Char → List String
  | [] => []
  | c :: cs =>
    let rest := jsU1Collect (some c) cs
    if (match prev with | none => true | some q => !isWordChar q) && isWordChar c then
      let w := (c :: cs).takeWhile isWordChar
      if ".execute(".toList.isPrefixOf ((c :: cs).drop w.length)
      then String.mk w :: rest else rest
    else rest

/-- `re.findall(r'return\s+(\w+)\.', content)`: collect the word after
`return` and one-or-more spaces, when a dot follows it. -/
def jsU2Collect : List Char → List String
  | [] => []
  | c :: cs =>
    let rest := jsU2Collect cs
    let s := c :: cs
    if "return".toList.isPrefixOf s then
      let r := s.drop 6
      if !(r.takeWhile isSpaceChar).isEmpty then
        let r2 := r.dropWhile isSpaceChar
        let w := r2.takeWhile isWordChar
        if !w.isEmpty && ".".toList.isPrefixOf (r2.drop w.length)
        then String.mk w :: rest else rest
      else rest
    else rest

/-- Match one declaration keyword, `\s+`, the variable, then `\b`, at the
head of a list. -/
def declKwAt (v kw s : List Char) : Bool :=
  kw.isPrefixOf s &&
    (let r := s.drop kw.length
     !(r.takeWhile isSpaceChar).isEmpty &&
       (let r2 := r.dropWhile isSpaceChar
        v.isPrefixOf r2 &&
          (match r2.drop v.length with
           | [] => true
           | c :: _ => !isWordChar c)))

/-- `re.search(rf'\b(const|let|var|function)\s+\x7bvar\x7d\b', content)`
(code_quality.py:147). -/
def jsHasDecl (content v : String) : Bool :=
  scanAnyB
    (fun s => ["const", "let", "var", "function"].any fun kw =>
      declKwAt v.toList kw.toList s)
    none content.toList

/-- `_validate_javascript_basics` (code_quality.py:115-167). -/
def validate_javascript_basics (file_path content : String) : List CodeQualityIssue :=
  let lower := (toLowerStr content).toList
  let mkPlaceholder (pat : String) : CodeQualityIssue :=
    { file_path, issue_type := "incomplete", severity := "critical"
    , description := "Contains placeholder comment: " ++ pat }
  let placeholderIssues :=
    (if scanAny (litWsLit "//".toList "...".toList) lower
     then [mkPlaceholder "//\\s*\\.\x7b3\x7d"] else []) ++
    (if scanAny jsRestOfAt lower
     then [mkPlaceholder "//\\s*rest\\s+of"] else []) ++
    (if scanAny (litWsLit "//".toList "todo".toList) lower
     then [mkPlaceholder "//\\s*TODO"] else []) ++
    (if scanAny jsBlockDotsAt lower
     then [mkPlaceholder "/\\*\\s*\\.\x7b3\x7d\\s*\\*/"] else [])
  let undefinedIssues :=
    (jsU1Collect none content.toList ++ jsU2Collect content.toList).filterMap
      fun v =>
        if v != "" && !jsHasDecl content v then
          some { file_path := file_path, issue_type := "undefined_var"
               , severity := "critical"
               , description := "Potentially undefined variable: " ++ v }
        else none
  let open_braces := content.toList.count '{'
  let close_braces := content.toList.count '}'
  let braceIssues :=
    if ((open_braces : Int) - close_braces).natAbs > 2 then
      [{ file_path := file_path, issue_type := "syntax", severity := "critical"
       , description := "Mismatched braces: " ++ toString open_braces ++
           " opening, " ++ toString close_braces ++ " closing" }]
    else []
  placeholderIssues ++ undefinedIssues ++ braceIssues

/-- `_validate_python_syntax` (code_quality.py:43-60); `pyParse` is
Python's `ast.parse`, returning the message and line of a `SyntaxError`
when parsing fails. -/
def validate_python_syntax (pyParse : String → Option (String × Option Nat))
    (file_path content : String) : List CodeQualityIssue :=
  match pyParse content with
  | none => []
  | some (msg, ln) =>
    [{ file_path, issue_type := "syntax", severity := "critical"
     , description := "Syntax error: " ++ msg, line_number := ln }]

/-- `_check_empty_file` (code_quality.py:170-182). -/
def check_empty_file (file_path content : String) : List CodeQualityIssue :=
  if (stripStr content).length < 10 then
    [{ file_path, issue_type := "incomplete", severity := "critical"
     , description := "File is empty or nearly empty" }]
  else []

/-- Outcome of `Path(file_path).exists()` plus `path.read_text()`:
the file is absent, reading raises, or reading yields the content. -/
inductive FileRead where
  | missing
  | readErr (msg : String)
  | found (content : String)
  deriving Repr, DecidableEq

def criticalCount (issues : List CodeQualityIssue) : Nat :=
  issues.countP fun i => i.severity == "critical"

def warningCount (issues : List CodeQualityIssue) : Nat :=
  issues.countP fun i => i.severity == "warning"

/-- `validate_file_quality` (code_quality.py:185-269).  `fs` models the
file system at validation time; `pyParse` models `ast.parse`.  The
`readErr` branch is the function's blanket `except Exception` handler. -/
def validate_file_quality (fs : String → FileRead)
    (pyParse : String → Option (String × Option Nat))
    (file_path : String) : QualityReport :=
  match fs file_path with
  | .missing =>
    { file_path, has_issues := true
    , issues := [{ file_path, issue_type := "missing", severity := "critical"
                 , description := "File does not exist" }]
    , quality_score := 0 }
  | .readErr e =>
    { file_path, has_issues := true
    , issues := [{ file_path, issue_type := "validation_error", severity := "critical"
                 , description := "Validation error: " ++ e }]
    , quality_score := 0 }
  | .found content =>
    let extension := toLowerStr (pathSuffix file_path)
    let issues :=
      check_empty_file file_path content ++
      (if extension == ".py" then validate_python_syntax pyParse file_path content
       else if extension == ".html" || extension == ".htm" then
         validate_html_structure file_path content
       else if extension == ".js" then validate_javascript_basics file_path content
       else [])
    let critical_count := criticalCount issues
    let warning_count := warningCount issues
    let quality_score : ℚ :=
      max 0 (1 - (critical_count : ℚ) * (3/10) - (warning_count : ℚ) * (1/10))
    { file_path, has_issues := issues.length > 0, issues, quality_score }

/-- The validator's scoring rule (code_quality.py:234) as a function of
the issue counts: `max(0.0, 1.0 - 0.3*critical - 0.1*warning)`. -/
def quality_score_formula (critical_count warning_count : Nat) : ℚ :=
  max 0 (1 - (critical_count : ℚ) * (3/10) - (warning_count : ℚ) * (1/10))

/- == generate_code tool of the coordinator (delegation.py:134-321) == -/

/-- External effects reached from inside the `generate_code` tool: the
extraction call's outcome (its own `try` block), per-file write success,
the file system and Python parser seen by the validator, and the
refactoring specialist's outcome (`.error` when `refactor_file` raises,
otherwise the returned `success` flag). -/
structure GenEnv where
  extract : String → Except String ExtractionResult
  write : String → String → Bool
  fs : String → FileRead
  pyParse : String → Option (String × Option Nat)
  refactor : String → Except String Bool

/-- `generate_code` tool body (delegation.py:134-321): run the
code-generation specialist, extract files, write each independently,
validate the written files, auto-refactor the critical ones, and fold
every failure into the returned string. -/
def generate_code_tool (env : GenEnv) (codeGen : Except String String) : String :=
  match codeGen with
  | .error e => "Generation failed: " ++ e
  | .ok output =>
    match env.extract output with
    | .error e => "Code extraction failed: " ++ e
    | .ok extraction_result =>
      let created_files :=
        (extraction_result.files.filter fun f => env.write f.file_path f.content).map
          fun f => f.file_path
      if created_files.isEmpty then
        "Failed to create any files from extraction"
      else
        let files_needing_refactor := created_files.filter fun p =>
          (validate_file_quality env.fs env.pyParse p).has_critical_issues
        let refactored_files := files_needing_refactor.filter fun p =>
          match env.refactor p with
          | .ok b => b
          | .error _ => false
        let files_summary := String.intercalate ", " created_files
        if refactored_files.isEmpty then
          "Created " ++ toString created_files.length ++ " file(s): " ++ files_summary
        else
          "Created " ++ toString created_files.length ++ " file(s): " ++ files_summary ++
            ". Auto-refactored " ++ toString refactored_files.length ++
            " file(s) to fix quality issues."

/- == Theorems == -/

/-- C1: for every final coordinator output text, `delegate_task` computes
`DelegationResult.success` as NOT any(indicator ∈ lowercase(text)) over the
fixed eight-indicator set, and on the three sample texts the detector
returns false, true, true respectively. -/
theorem C1_success_detector :
    (∀ output, delegate_task (.ok output) = .ok (mkDelegationResult output))
    ∧ (∀ output, (mkDelegationResult output).success = compute_success output)
    ∧ compute_success "Operation failed: disk full" = false
    ∧ compute_success "Created 3 files successfully" = true
    ∧ compute_success "" = true :=
  ⟨fun _ => rfl, fun _ => rfl, by decide, by decide, by decide⟩

/-- C2 counterexample: when the coordinator's own model run raises (here,
with message "connection refused"), `delegate_task` does not return a
`DelegationResult`; the exception propagates to the caller, contradicting
the claim that delegate_task always returns and never raises. -/
theorem C2_counterexample :
    delegate_task (Except.error "connection refused")
      = Except.error "connection refused" := rfl

/-- C2 (amended): `delegate_task` returns a `DelegationResult` whenever
the coordinator's own run returns normally, and failures inside the four
capability tools are caught at their call sites and folded into the
returned text; but an exception from the coordinator's own
`coordinator.run` call is not caught and propagates to the caller. -/
theorem C2_amended_error_folding :
    (∀ output, delegate_task (.ok output) = .ok (mkDelegationResult output))
    ∧ (∀ e, analyze_codebase_tool (.error e) = "Analysis failed: " ++ e)
    ∧ (∀ e, edit_files_tool (.error e) = "Edit failed: " ++ e)
    ∧ (∀ e, search_code_tool (.error e) = "Search failed: " ++ e)
    ∧ (∀ env e, generate_code_tool env (.error e) = "Generation failed: " ++ e)
    ∧ (∀ e, delegate_task (.error e) = .error e) :=
  ⟨fun _ => rfl, fun _ => rfl, fun _ => rfl, fun _ => rfl,
   fun _ _ => rfl, fun _ => rfl⟩

/-- C10: the agents_used heuristic of `delegate_task` only ever reports a
subsequence of ["codebase_investigator", "file_editor"], in that order,
each at most once, and never "code_generator". -/
theorem C10_agents_used_subsequence :
    ∀ output,
      (agents_used_of output = [] ∨
       agents_used_of output = ["codebase_investigator"] ∨
       agents_used_of output = ["file_editor"] ∨
       agents_used_of output = ["codebase_investigator", "file_editor"])
      ∧ "code_generator" ∉ agents_used_of output := by
  intro output
  cases h1 : (strContains output "analyze_codebase"
      || strContains (toLowerStr output) "codebase") <;>
    cases h2 : (strContains output "edit_files"
        || strContains (toLowerStr output) "editor") <;>
      simp [agents_used_of, h1, h2]

/-- An environment in which extraction succeeds but every file write
fails, so `generate_code` creates zero files. -/
def env9 : GenEnv :=
  { extract := fun _ => .ok
      { files := [{ file_path := "sandbox/app.py", content := "print(1)"
                  , file_type := "py" }], num_files := 1 }
  , write := fun _ _ => false
  , fs := fun _ => .missing
  , pyParse := fun _ => none
  , refactor := fun _ => .error "not reached" }

/-- C9: the failure string returned by `generate_code` when zero extracted
files could be written contains none of the error indicators scanned by
`delegate_task`, so a coordinator result equal to it is classified as
success. -/
theorem C9_total_failure_reads_as_success :
    generate_code_tool env9 (.ok "make app.py")
      = "Failed to create any files from extraction"
    ∧ (mkDelegationResult "Failed to create any files from extraction").success = true
    ∧ error_indicators.all
        (fun ind =>
          !(strContains (toLowerStr "Failed to create any files from extraction") ind))
      = true :=
  ⟨rfl, by decide, by decide⟩

/-- C6: every `ExtractionResult` produced by `extract_code_from_response`,
on the JSON-parsing path and on the fallback path alike, satisfies
`num_files = files.length`. -/
theorem C6_num_files_invariant :
    ∀ agentRun jsonDecode raw p,
      (extract_code_from_response agentRun jsonDecode raw p).num_files
        = (extract_code_from_response agentRun jsonDecode raw p).files.length := by
  intro ar dec raw p
  rcases ar with e | out
  · rfl
  · unfold extract_code_from_response
    rcases h : firstBraceSpan out with _ | j
    · simp [h]
    · rcases hd : dec j with m | files <;> simp [h, hd]

/-- The single-file fallback result of the extractor (code_extractor.py:
152-160): the whole raw text at the requested path, with the file type
computed from the path's extension by stripping leading dots. -/
def fallbackExtraction (response_text requested_file_path : String) : ExtractionResult :=
  { files := [{ file_path := requested_file_path
              , content := response_text
              , file_type := String.mk
                  ((pathSuffix requested_file_path).toList.dropWhile fun c => c == '.') }]
  , num_files := 1 }

/-- C4: `extract_code_from_response` never raises; on each of its three
internal failure modes — extraction-agent error, no JSON object in the
agent output, JSON decoding error — it returns exactly one file whose
content is the whole raw text, whose path is the target path, and whose
file type is the target path's extension without the leading dot. -/
theorem C4_extractor_fallback :
    ∀ (jsonDecode : String → Except String (List ExtractedFile)) (raw p : String),
      (∀ e, extract_code_from_response (.error e) jsonDecode raw p
        = fallbackExtraction raw p)
      ∧ (∀ out, firstBraceSpan out = none →
          extract_code_from_response (.ok out) jsonDecode raw p
            = fallbackExtraction raw p)
      ∧ (∀ out jsonStr msg, firstBraceSpan out = some jsonStr →
          jsonDecode jsonStr = .error msg →
          extract_code_from_response (.ok out) jsonDecode raw p
            = fallbackExtraction raw p) := by
  intro dec raw p
  refine ⟨fun e => rfl, fun out h => ?_, fun out jsonStr msg h hd => ?_⟩
  · simp [extract_code_from_response, h, fallbackExtraction]
  · simp [extract_code_from_response, h, hd, fallbackExtraction]

/-- C4 witness: the fallback equalities at concrete inputs, with each
hypothesis discharged by evaluation. -/
theorem C4_extractor_fallback_witness :
    (extract_code_from_response (.error "model unavailable") (fun _ => .ok [])
        "raw text body" "sandbox/app.py"
      = fallbackExtraction "raw text body" "sandbox/app.py")
    ∧ firstBraceSpan "plain prose answer" = none
    ∧ (extract_code_from_response (.ok "plain prose answer") (fun _ => .ok [])
        "raw text body" "sandbox/app.py"
      = fallbackExtraction "raw text body" "sandbox/app.py")
    ∧ firstBraceSpan "json: {x}" = some "{x}"
    ∧ (extract_code_from_response (.ok "json: {x}") (fun _ => .error "bad json")
        "raw text body" "sandbox/app.py"
      = fallbackExtraction "raw text body" "sandbox/app.py") :=
  ⟨(C4_extractor_fallback (fun _ => .ok []) "raw text body" "sandbox/app.py").1
      "model unavailable",
   by decide,
   (C4_extractor_fallback (fun _ => .ok []) "raw text body" "sandbox/app.py").2.1
      "plain prose answer" (by decide),
   by decide,
   (C4_extractor_fallback (fun _ => .error "bad json") "raw text body"
      "sandbox/app.py").2.2 "json: {x}" "{x}" "bad json" (by decide) rfl⟩

/-- A code-generation response that is pure prose with an embedded
markdown-fenced code block and no JSON object. -/
def proseWithFence : String :=
  "Here is your file:\n```python\nprint(1)\n```\nEnjoy!"

/-- C8 counterexample: when the extraction agent's output holds no JSON
object, the extractor wraps the ENTIRE raw prose (fence and surrounding
text included) as the file content; the content is not the code block's
contents "print(1)\n", so no markdown-fence fallback exists. -/
theorem C8_counterexample :
    (extract_code_from_response (.ok "Sorry, plain prose only.")
        (fun _ => .error "not reached") proseWithFence "sandbox/app.py").files
      = [{ file_path := "sandbox/app.py", content := proseWithFence
         , file_type := "py" }]
    ∧ proseWithFence ≠ "print(1)\n"
    ∧ strContains proseWithFence "```python" = true := by
  refine ⟨by decide, by decide, by decide⟩

/-- C8 (amended): there is no markdown-fence fallback — whenever the
extraction agent's output holds no JSON object, the extractor returns one
file whose content is the entire raw response text, prose and fences
included, at the requested path. -/
theorem C8_amended_whole_text_fallback :
    ∀ (jsonDecode : String → Except String (List ExtractedFile))
      (agentOut raw p : String),
      firstBraceSpan agentOut = none →
      extract_code_from_response (.ok agentOut) jsonDecode raw p
        = fallbackExtraction raw p := by
  intro dec agentOut raw p h
  simp [extract_code_from_response, h, fallbackExtraction]

/-- C8 witness: the whole-text fallback at a concrete prose response. -/
theorem C8_amended_whole_text_fallback_witness :
    firstBraceSpan "Sorry, plain prose only." = none
    ∧ extract_code_from_response (.ok "Sorry, plain prose only.")
        (fun _ => .ok []) proseWithFence "sandbox/app.py"
      = fallbackExtraction proseWithFence "sandbox/app.py" :=
  ⟨by decide,
   C8_amended_whole_text_fallback (fun _ => .ok []) "Sorry, plain prose only."
     proseWithFence "sandbox/app.py" (by decide)⟩

/-- C5: `validate_file_quality` never raises; a missing file, or an
exception while reading/validating, yields a report with a
critical-severity issue and `quality_score = 0.0`. -/
theorem C5_validator_failure_reports :
    ∀ (fs : String → FileRead) (pyParse : String → Option (String × Option Nat))
      (p : String),
      (fs p = FileRead.missing →
        (validate_file_quality fs pyParse p).quality_score = 0
        ∧ (validate_file_quality fs pyParse p).has_critical_issues = true
        ∧ (validate_file_quality fs pyParse p).has_issues = true)
      ∧ (∀ e, fs p = FileRead.readErr e →
        (validate_file_quality fs pyParse p).quality_score = 0
        ∧ (validate_file_quality fs pyParse p).has_critical_issues = true
        ∧ (validate_file_quality fs pyParse p).has_issues = true) := by
  intro fs pp p
  constructor
  · intro h
    simp [validate_file_quality, h, QualityReport.has_critical_issues]
  · intro e h
    simp [validate_file_quality, h, QualityReport.has_critical_issues]

/-- C5 witness: the missing-file and read-exception reports at concrete
environments. -/
theorem C5_validator_failure_reports_witness :
    (validate_file_quality (fun _ => FileRead.missing) (fun _ => none)
        "app.py").quality_score = 0
    ∧ (validate_file_quality (fun _ => FileRead.missing) (fun _ => none)
        "app.py").has_critical_issues = true
    ∧ (validate_file_quality (fun _ => FileRead.readErr "decode error")
        (fun _ => none) "app.py").quality_score = 0
    ∧ (validate_file_quality (fun _ => FileRead.readErr "decode error")
        (fun _ => none) "app.py").has_critical_issues = true :=
  ⟨((C5_validator_failure_reports (fun _ => FileRead.missing) (fun _ => none)
      "app.py").1 rfl).1,
   ((C5_validator_failure_reports (fun _ => FileRead.missing) (fun _ => none)
      "app.py").1 rfl).2.1,
   ((C5_validator_failure_reports (fun _ => FileRead.readErr "decode error")
      (fun _ => none) "app.py").2 "decode error" rfl).1,
   ((C5_validator_failure_reports (fun _ => FileRead.readErr "decode error")
      (fun _ => none) "app.py").2 "decode error" rfl).2.1⟩

/-- A JavaScript content with four critical issues: each of the four
placeholder-comment patterns occurs once. -/
def jsFour : String := "// ...\n// TODO\n// rest of\n/* ... */"

/-- The same content plus three unmatched opening braces, adding a fifth
critical issue (brace mismatch beyond the tolerance of 2). -/
def jsFive : String := "// ...\n// TODO\n// rest of\n/* ... */\n\x7b\x7b\x7b"

/-- A file system holding the two JavaScript files above. -/
def fsJs : String → FileRead := fun p =>
  if p = "four.js" then .found jsFour
  else if p = "five.js" then .found jsFive
  else .missing

/-- On every successful read, the validator's score is the scoring rule
applied to the report's own issue counts. -/
theorem validate_found_score (fs : String → FileRead)
    (pyParse : String → Option (String × Option Nat)) (p content : String)
    (h : fs p = FileRead.found content) :
    (validate_file_quality fs pyParse p).quality_score
      = quality_score_formula
          (criticalCount (validate_file_quality fs pyParse p).issues)
          (warningCount (validate_file_quality fs pyParse p).issues) := by
  simp only [validate_file_quality, h, quality_score_formula]

/-- C3 counterexample: two validated files whose critical counts are 4
and 5 (warnings both 0) receive the same quality score 0 — the floor at 0
makes the score only weakly, not strictly, decreasing in the counts. -/
theorem C3_counterexample :
    criticalCount (validate_file_quality fsJs (fun _ => none) "four.js").issues = 4
    ∧ warningCount (validate_file_quality fsJs (fun _ => none) "four.js").issues = 0
    ∧ criticalCount (validate_file_quality fsJs (fun _ => none) "five.js").issues = 5
    ∧ warningCount (validate_file_quality fsJs (fun _ => none) "five.js").issues = 0
    ∧ (validate_file_quality fsJs (fun _ => none) "four.js").quality_score = 0
    ∧ (validate_file_quality fsJs (fun _ => none) "five.js").quality_score = 0 := by
  refine ⟨by decide, by decide, by decide, by decide, ?_, ?_⟩
  · rw [validate_found_score fsJs (fun _ => none) "four.js" jsFour (by decide)]
    rw [show criticalCount
        (validate_file_quality fsJs (fun _ => none) "four.js").issues = 4 from by decide]
    rw [show warningCount
        (validate_file_quality fsJs (fun _ => none) "four.js").issues = 0 from by decide]
    unfold quality_score_formula
    push_cast
    rw [max_eq_left (by norm_num)]
  · rw [validate_found_score fsJs (fun _ => none) "five.js" jsFive (by decide)]
    rw [show criticalCount
        (validate_file_quality fsJs (fun _ => none) "five.js").issues = 5 from by decide]
    rw [show warningCount
        (validate_file_quality fsJs (fun _ => none) "five.js").issues = 0 from by decide]
    unfold quality_score_formula
    push_cast
    rw [max_eq_left (by norm_num)]

/-- C3 (amended): for every file that is read successfully, the quality
score equals `max(0, 1 - 0.3*critical - 0.1*warning)` over the report's
issue counts; the score is monotonically non-increasing (not strictly
decreasing) as the counts increase, never negative and never above 1. -/
theorem C3_amended_score_formula_monotone :
    (∀ (fs : String → FileRead) (pyParse : String → Option (String × Option Nat))
        (p content : String), fs p = FileRead.found content →
      (validate_file_quality fs pyParse p).quality_score
        = quality_score_formula
            (criticalCount (validate_file_quality fs pyParse p).issues)
            (warningCount (validate_file_quality fs pyParse p).issues))
    ∧ (∀ c w c' w' : Nat, c ≤ c' → w ≤ w' →
        quality_score_formula c' w' ≤ quality_score_formula c w)
    ∧ (∀ c w : Nat,
        0 ≤ quality_score_formula c w ∧ quality_score_formula c w ≤ 1) := by
  refine ⟨?_, ?_, ?_⟩
  · intro fs pp p content h
    simp only [validate_file_quality, h, quality_score_formula]
  · intro c w c' w' hc hw
    unfold quality_score_formula
    apply max_le_max le_rfl
    have hc' : (c : ℚ) ≤ c' := by exact_mod_cast hc
    have hw' : (w : ℚ) ≤ w' := by exact_mod_cast hw
    nlinarith
  · intro c w
    unfold quality_score_formula
    refine ⟨le_max_left _ _, max_le (by norm_num) ?_⟩
    have hc : (0 : ℚ) ≤ (c : ℚ) := Nat.cast_nonneg c
    have hw : (0 : ℚ) ≤ (w : ℚ) := Nat.cast_nonneg w
    nlinarith

/-- C3 witness: the formula equality, the monotone inequality, and the
bounds, at concrete inputs. -/
theorem C3_amended_score_formula_monotone_witness :
    (validate_file_quality (fun _ => FileRead.found "0123456789abcdef")
        (fun _ => none) "data.txt").quality_score
      = quality_score_formula
          (criticalCount (validate_file_quality (fun _ => FileRead.found "0123456789abcdef")
              (fun _ => none) "data.txt").issues)
          (warningCount (validate_file_quality (fun _ => FileRead.found "0123456789abcdef")
              (fun _ => none) "data.txt").issues)
    ∧ quality_score_formula 2 3 ≤ quality_score_formula 1 2
    ∧ (0 ≤ quality_score_formula 1 2 ∧ quality_score_formula 1 2 ≤ 1) :=
  ⟨C3_amended_score_formula_monotone.1 (fun _ => FileRead.found "0123456789abcdef")
      (fun _ => none) "data.txt" "0123456789abcdef" rfl,
   C3_amended_score_formula_monotone.2.1 1 2 2 3 (by decide) (by decide),
   C3_amended_score_formula_monotone.2.2 1 2⟩

/-- Membership in a conditional singleton list. -/
theorem mem_ite_singleton {α : Type} {c : Prop} [Decidable c] (a x : α) :
    (a ∈ if c then [x] else []) ↔ c ∧ a = x := by
  split <;> simp_all

/-- C7 (amended): on any content, the HTML validator reports the DOCTYPE
warning iff the DOCTYPE is absent, one critical issue for each of the
`<html>`, `<head>`, `<body>` tags that is absent, and the critical
balance issue iff the `<html>` count strictly exceeds the `</html>` count
(not whenever the two counts differ in either direction). -/
theorem C7_amended_html_checks :
    ∀ fp content,
      (({ file_path := fp, issue_type := "incomplete", severity := "warning"
        , description := "Missing DOCTYPE declaration" } : CodeQualityIssue)
          ∈ validate_html_structure fp content ↔ hasDoctype content = false)
      ∧ (({ file_path := fp, issue_type := "incomplete", severity := "critical"
          , description := "Missing <html> tag" } : CodeQualityIssue)
          ∈ validate_html_structure fp content ↔ hasOpenTag "html" content = false)
      ∧ (({ file_path := fp, issue_type := "incomplete", severity := "critical"
          , description := "Missing <head> tag" } : CodeQualityIssue)
          ∈ validate_html_structure fp content ↔ hasOpenTag "head" content = false)
      ∧ (({ file_path := fp, issue_type := "incomplete", severity := "critical"
          , description := "Missing <body> tag" } : CodeQualityIssue)
          ∈ validate_html_structure fp content ↔ hasOpenTag "body" content = false)
      ∧ (({ file_path := fp, issue_type := "incomplete", severity := "critical"
          , description := "Unclosed <html> tag" } : CodeQualityIssue)
          ∈ validate_html_structure fp content
            ↔ htmlOpenCount content > htmlCloseCount content) := by
  intro fp content
  unfold validate_html_structure
  refine ⟨?_, ?_, ?_, ?_, ?_⟩ <;>
    simp +decide [List.mem_append, mem_ite_singleton, CodeQualityIssue.mk.injEq]

/-- An HTML content whose `</html>` count (2) exceeds its `<html>` count
(1): unbalanced, yet the validator reports no issue at all. -/
def htmlExtraClose : String :=
  "<!DOCTYPE html><html><head></head><body></body></html></html>"

/-- C7 counterexample: on content with unbalanced `<html>`/`</html>`
counts in the closing-heavy direction, the validator emits no critical
issue (the code only checks `opening > closing`), contradicting the claim
that a count difference in either direction is flagged. -/
theorem C7_counterexample :
    htmlOpenCount htmlExtraClose = 1
    ∧ htmlCloseCount htmlExtraClose = 2
    ∧ validate_html_structure "page.html" htmlExtraClose = []
    ∧ (validate_file_quality (fun _ => FileRead.found htmlExtraClose)
        (fun _ => none) "page.html").issues = [] := by
  refine ⟨by decide, by decide, by decide, by decide⟩
